import Mathlib

/-
Verification of the screenshot-sentiment-analysis pipeline
(backend/services/sentiment_analyzer.py, report_generator.py,
image_analyzer.py and api/routes.py) against its specification.

The Python code manipulates JSON-like dictionaries (loosely typed values
coming from json.loads and pydantic models).  We embed those values as the
inductive type JVal below.  Functions that can raise a Python exception are
embedded as Option-valued functions (none = an exception propagates);
functions that cannot raise are total.  Numbers are embedded as rationals;
the float arithmetic used by the code (counting and single divisions) is
exact on the values involved.  The json library functions (json.loads,
json.dumps) are external collaborators and are taken as parameters of the
embedded functions.
-/

set_option linter.unusedVariables false

/-- A JSON-like Python value. -/
inductive JVal where
  | jnull
  | jbool (b : Bool)
  | jnum (q : ℚ)
  | jstr (s : String)
  | jarr (xs : List JVal)
  | jobj (fields : List (String × JVal))

/-- Hashable Python values usable as dict keys.  (Lists and dicts are
unhashable: using them as a key raises TypeError.  The Python identification
of True with 1 as dict keys is not modelled; the join keys relevant here are
strings and None.) -/
inductive JKey where
  | knull
  | kbool (b : Bool)
  | knum (q : ℚ)
  | kstr (s : String)
deriving DecidableEq

/-- Convert a value to a dict key; none models the TypeError raised on an
unhashable key. -/
def toKey : JVal → Option JKey
  | .jnull => some .knull
  | .jbool b => some (.kbool b)
  | .jnum q => some (.knum q)
  | .jstr s => some (.kstr s)
  | .jarr _ => none
  | .jobj _ => none

/-- Python attribute access d.get(k) requires a dict. -/
def asObj : JVal → Option (List (String × JVal))
  | .jobj fs => some fs
  | _ => none

/-- First binding of a key in a field list (our jobj values are treated as
canonical: no duplicate keys, as produced by json.loads). -/
def getField : List (String × JVal) → String → Option JVal
  | [], _ => none
  | (k, v) :: rest, key => if k = key then some v else getField rest key

/-- Python d.get(key, default). -/
def getFieldD (fs : List (String × JVal)) (key : String) (d : JVal) : JVal :=
  (getField fs key).getD d

/-- Python truthiness of a JSON value. -/
def pyTruthy : JVal → Bool
  | .jnull => false
  | .jbool b => b
  | .jnum q => decide (q ≠ 0)
  | .jstr s => !s.isEmpty
  | .jarr xs => !xs.isEmpty
  | .jobj fs => !fs.isEmpty

/-- Python `a or b`. -/
def pyOr (a b : JVal) : JVal := if pyTruthy a then a else b

/-- schema/response.py SentimentType: str enum positive/negative/neutral. -/
inductive SentimentType where
  | positive
  | negative
  | neutral
deriving DecidableEq

/-- SentimentType(x) with the ValueError branch mapped to NEUTRAL, as in
merge_post_info and parse_keywords: only the three exact strings are
recognized, anything else raises ValueError which the callers turn into
NEUTRAL. -/
def parseSentiment : JVal → SentimentType
  | .jstr "positive" => .positive
  | .jstr "negative" => .negative
  | .jstr "neutral" => .neutral
  | _ => .neutral

/-- pydantic str field: must be a string (numeric-string coercions of other
fields are irrelevant here; a non-str raises ValidationError). -/
def asStr : JVal → Option String
  | .jstr s => some s
  | _ => none

/-- pydantic Optional[int] field: None stays None, an integral number is
accepted, anything else raises ValidationError. -/
def asOptInt : JVal → Option (Option Int)
  | .jnull => some none
  | .jnum q => if q.den = 1 then some (some q.num) else none
  | _ => none

/-- pydantic float field for sentiment_score: must be numeric.  (The lax
coercion of numeric strings to float is not modelled; no claim involves a
string-valued score.) -/
def asScore : JVal → Option ℚ
  | .jnum q => some q
  | _ => none

/-- pydantic List[str] field: a list whose elements are all strings. -/
def asStrList : JVal → Option (List String)
  | .jarr xs => xs.mapM asStr
  | _ => none

/-- schema/response.py PostInfo (the merged Post entity). -/
structure PostInfo where
  title : String
  content : String
  author : String
  likes : Option Int
  comments : Option Int
  sentiment : SentimentType
  sentiment_score : ℚ
  keywords : List String
deriving DecidableEq

/-- pydantic validation of PostInfo: the Field(ge=-1.0, le=1.0) constraint on
sentiment_score; a violating construction raises ValidationError (none). -/
def mkPostInfo (title content author : String) (likes comments : Option Int)
    (sentiment : SentimentType) (score : ℚ) (keywords : List String) :
    Option PostInfo :=
  if -1 ≤ score ∧ score ≤ 1 then
    some ⟨title, content, author, likes, comments, sentiment, score, keywords⟩
  else
    none

/-- The dict-comprehension key of one analyzed record:
post.get("original_title", "") made hashable.  none models the exception
raised when the record is not a dict or the title is unhashable. -/
def keyOfRecord (p : JVal) : Option JKey := do
  let fs ← asObj p
  toKey (getFieldD fs "original_title" (.jstr ""))

/-- The dict comprehension
`{post.get("original_title", ""): post for post in analyzed_posts}`:
a left-to-right fold in which a later record overwrites an earlier one with
the same key. -/
def buildGo (m : JKey → Option JVal) : List JVal → Option (JKey → Option JVal)
  | [] => some m
  | p :: rest =>
    match keyOfRecord p with
    | none => none
    | some k => buildGo (fun kq => if kq = k then some p else m kq) rest

/-- analysis_map in SentimentAnalyzer.merge_post_info. -/
def buildAnalysisMap (analyzed_posts : List JVal) :
    Option (JKey → Option JVal) :=
  buildGo (fun _ => none) analyzed_posts

/-- One iteration of the merge loop in SentimentAnalyzer.merge_post_info:
look the title up in analysis_map (default {}), coerce the sentiment, build
the PostInfo. -/
def mergeOne (lookup : JKey → Option JVal) (original : JVal) :
    Option PostInfo := do
  let fields ← asObj original
  let title := getFieldD fields "title" (.jstr "")
  let tkey ← toKey title
  let analysis := (lookup tkey).getD (.jobj [])
  let afields ← asObj analysis
  let sentiment := parseSentiment (getFieldD afields "sentiment" (.jstr "neutral"))
  let score ← asScore (pyOr (getFieldD afields "sentiment_score" (.jnum 0)) (.jnum 0))
  let titleStr ← asStr (pyOr title (.jstr ""))
  let contentStr ← asStr (pyOr (getFieldD fields "content" .jnull) (.jstr ""))
  let authorStr ← asStr (pyOr (getFieldD fields "author" .jnull) (.jstr ""))
  let likes ← asOptInt (getFieldD fields "likes" .jnull)
  let comments ← asOptInt (getFieldD fields "comments" .jnull)
  let keywords ← asStrList (pyOr (getFieldD afields "keywords" .jnull) (.jarr []))
  mkPostInfo titleStr contentStr authorStr likes comments sentiment score keywords

/-- The for-loop of merge_post_info over original_posts, appending one
PostInfo per original post; an exception anywhere aborts the whole merge. -/
def mergeAll (lookup : JKey → Option JVal) : List JVal → Option (List PostInfo)
  | [] => some []
  | o :: rest =>
    match mergeOne lookup o, mergeAll lookup rest with
    | some p, some ps => some (p :: ps)
    | _, _ => none

/-- SentimentAnalyzer.merge_post_info. -/
def merge_post_info (original_posts analyzed_posts : List JVal) :
    Option (List PostInfo) :=
  match buildAnalysisMap analyzed_posts with
  | none => none
  | some m => mergeAll m original_posts

/-- Modelled from the spec words for the refinement statement of last-write
wins: the LAST analyzed record whose original_title key equals k (later
records take precedence). -/
def lastMatching : List JVal → JKey → Option JVal
  | [], _ => none
  | p :: rest, k =>
    match lastMatching rest k with
    | some q => some q
    | none => if keyOfRecord p = some k then some p else none

/-- schema/response.py SentimentDistribution (counts are ints, ratios are
floats in the source, modelled exactly as rationals; field names
positive_ratio, negative_ratio, neutral_ratio of the source are rendered
ratio_positive, ratio_negative, ratio_neutral here). -/
structure SentimentDistribution where
  positive_count : ℕ
  negative_count : ℕ
  neutral_count : ℕ
  ratio_positive : ℚ
  ratio_negative : ℚ
  ratio_neutral : ℚ
deriving DecidableEq

/-- SentimentDistribution() with all pydantic defaults. -/
def emptyDistribution : SentimentDistribution := ⟨0, 0, 0, 0, 0, 0⟩

/-- ReportGenerator.calculate_sentiment_distribution. -/
def calculate_sentiment_distribution (posts : List PostInfo) :
    SentimentDistribution :=
  let total := posts.length
  if total = 0 then
    emptyDistribution
  else
    let positive_count := posts.countP (fun p => decide (p.sentiment = SentimentType.positive))
    let negative_count := posts.countP (fun p => decide (p.sentiment = SentimentType.negative))
    let neutral_count := posts.countP (fun p => decide (p.sentiment = SentimentType.neutral))
    ⟨positive_count, negative_count, neutral_count,
      (positive_count : ℚ) / total,
      (negative_count : ℚ) / total,
      (neutral_count : ℚ) / total⟩

/-- schema/response.py KeywordInfo. -/
structure KeywordInfo where
  word : String
  count : Int
  sentiment : SentimentType
deriving DecidableEq

/-- The body of one iteration of the loop in ReportGenerator.parse_keywords:
sentiment coerced to neutral on an unrecognized value, word defaulting to "",
count defaulting to 1; none models the records skipped by the
`except Exception: continue` arm (non-dict entry, non-string word,
non-integer count). -/
def parseKeywordEntry (kw : JVal) : Option KeywordInfo :=
  match kw with
  | .jobj fs =>
    let sentiment := parseSentiment (getFieldD fs "sentiment" (.jstr "neutral"))
    match asStr (getFieldD fs "word" (.jstr "")),
          asOptInt (getFieldD fs "count" (.jnum 1)) with
    | some w, some (some c) => some ⟨w, c, sentiment⟩
    | _, _ => none
  | _ => none

/-- ReportGenerator.parse_keywords: iterate over keywords_data[:10], keeping
the entries that construct successfully. -/
def parse_keywords (keywords_data : List JVal) : List KeywordInfo :=
  (keywords_data.take 10).filterMap parseKeywordEntry

/-- Python str.strip(): remove leading and trailing whitespace
(character-list implementation, matching the char-based Python semantics). -/
def pyStrip (s : String) : String :=
  ⟨((s.data.dropWhile Char.isWhitespace).reverse.dropWhile
      Char.isWhitespace).reverse⟩

/-- Python str.startswith (character-list implementation). -/
def strStartsWith (s pre : String) : Bool := pre.data.isPrefixOf s.data

/-- Python str.endswith (character-list implementation). -/
def strEndsWith (s suf : String) : Bool :=
  suf.data.reverse.isPrefixOf s.data.reverse

/-- Python s[n:] (character-based slicing). -/
def strDrop (s : String) (n : ℕ) : String := ⟨s.data.drop n⟩

/-- Python s[:-n] (character-based slicing). -/
def strDropRight (s : String) (n : ℕ) : String :=
  ⟨s.data.take (s.data.length - n)⟩

/-- Strip markdown code-fence markers, exactly as the three services do:
drop a leading "```json", then a leading "```", then a trailing "```". -/
def stripFences (s : String) : String :=
  let s := if strStartsWith s "```json" then strDrop s 7 else s
  let s := if strStartsWith s "```" then strDrop s 3 else s
  let s := if strEndsWith s "```" then strDropRight s 3 else s
  s

/-- The text-cleanup-and-parse step shared by the three services:
strip the already-trimmed text of fences, trim again, parse.  The json.loads
collaborator is the `loads` parameter. -/
def cleanAndParse (loads : String → Option JVal) (text : String) : Option JVal :=
  loads (pyStrip (stripFences (pyStrip text)))

/-- The fixed result analyze_sentiment returns for an empty input list. -/
def emptySentimentResult : JVal :=
  .jobj [("analyzed_posts", .jarr []),
         ("top_keywords", .jarr []),
         ("risk_alerts", .jarr []),
         ("overall_sentiment", .jstr "neutral"),
         ("sentiment_summary", .jstr "没有可分析的帖子内容")]

/-- The safe result analyze_sentiment returns when json.loads fails.  The
"error" field carries str(e); the exact message text is environment
dependent and modelled as a fixed tag. -/
def parseFailSentimentResult : JVal :=
  .jobj [("analyzed_posts", .jarr []),
         ("top_keywords", .jarr []),
         ("risk_alerts", .jarr []),
         ("overall_sentiment", .jstr "neutral"),
         ("sentiment_summary", .jstr "分析过程中发生错误"),
         ("error", .jstr "JSONDecodeError")]

/-- Outcome of one service call: whether the upstream API was invoked, and
either the returned value or a propagated exception (Except.error). -/
structure CallResult where
  calledUpstream : Bool
  outcome : Except String JVal

/-- SentimentAnalyzer.analyze_sentiment.  The upstream transport (the
_call_doubao_api coroutine) is abstracted as `transport`: its error case is
the httpx transport failure, which the `except Exception: raise` arm
re-raises; its ok case is the extracted response text.  After a successful
parse the code logs result.get("overall_sentiment"): when the parsed value
is not a dict this raises AttributeError, which the same except-Exception
arm re-raises (the message text is environment dependent and modelled as a
fixed tag). -/
def analyze_sentiment (posts : List JVal)
    (transport : Except String String) (loads : String → Option JVal) :
    CallResult :=
  if posts.isEmpty then
    ⟨false, .ok emptySentimentResult⟩
  else
    match transport with
    | .error e => ⟨true, .error e⟩
    | .ok text =>
      match cleanAndParse loads text with
      | some v =>
        match v with
        | .jobj fs => ⟨true, .ok (.jobj fs)⟩
        | _ => ⟨true, .error "AttributeError"⟩
      | none => ⟨true, .ok parseFailSentimentResult⟩

/-- Python `"key" in result` on an arbitrary value: membership for a dict
(keys) or a list (elements), substring test for a string, TypeError (none)
otherwise.  The substring test uses splitOn: k occurs in s iff splitting on
the nonempty k yields more than one piece. -/
def envContains (env : JVal) (k : String) : Option Bool :=
  match env with
  | .jobj fs => some (getField fs k).isSome
  | .jarr xs => some (xs.any fun v => match v with | .jstr s => s = k | _ => false)
  | .jstr s => some (decide ((s.splitOn k).length > 1))
  | _ => none

/-- Is this item a dict with item.get("type") == tag? -/
def isTypeTagged (tag : String) (v : JVal) : Bool :=
  match v with
  | .jobj fs =>
    match getField fs "type" with
    | some (.jstr s) => s = tag
    | _ => false
  | _ => false

/-- The envelope branch for result["output"] (lines 165-186 of
image_analyzer.py and the identical cascades of the other two clients):
list of typed message items, dict with a content field, or plain string;
anything else leaves response_text equal to "".  The loops take data from
the FIRST message item and the FIRST output_text segment and break. -/
def outputShape (output : JVal) : JVal :=
  match output with
  | .jarr items =>
    match items.find? (isTypeTagged "message") with
    | some (.jobj fs) =>
      match getField fs "content" with
      | some (.jarr cs) =>
        match cs.find? (isTypeTagged "output_text") with
        | some (.jobj cfs) => getFieldD cfs "text" (.jstr "")
        | _ => .jstr ""
      | some (.jstr s) => .jstr s
      | none => .jstr ""
      | some _ => .jstr ""
    | _ => .jstr ""
  | .jobj ofs =>
    match getField ofs "content" with
    | some v => v
    | none => .jstr ""
  | .jstr s => .jstr s
  | _ => .jstr ""

/-- The envelope branch for result["choices"] (OpenAI-style):
`if choices and len(choices) > 0: choices[0].get("message", {}).get("content", "")`.
none models the TypeError raised by len() on an unsized value, by indexing,
or by .get on a non-dict. -/
def choicesShape (choices : JVal) : Option JVal :=
  match choices with
  | .jarr [] => some (.jstr "")
  | .jarr (c0 :: _) =>
    match c0 with
    | .jobj c0fs =>
      match getFieldD c0fs "message" (.jobj []) with
      | .jobj mfs => some (getFieldD mfs "content" (.jstr ""))
      | _ => none
    | _ => none
  | .jstr s => if s.isEmpty then some (.jstr "") else none
  | .jobj fs => if fs.isEmpty then some (.jstr "") else none
  | .jnum q => if q = 0 then some (.jstr "") else none
  | .jbool b => if b then none else some (.jstr "")
  | .jnull => some (.jstr "")

/-- The whole response_text extraction cascade over the transport envelope
(response.json()): try result["output"], then result["choices"], else leave
"".  none models a propagated TypeError. -/
def extractRaw (env : JVal) : Option JVal := do
  let hasOutput ← envContains env "output"
  if hasOutput then
    match env with
    | .jobj fs => some (outputShape ((getField fs "output").getD .jnull))
    | _ => none
  else
    let hasChoices ← envContains env "choices"
    if hasChoices then
      match env with
      | .jobj fs => choicesShape ((getField fs "choices").getD .jnull)
      | _ => none
    else
      some (.jstr "")

/-- The diagnostic soft-failure dict of ImageAnalyzer.analyze_image: empty
post list, error tag, and the fence-stripped raw model text. -/
def imageParseFailResult (rawText : String) : JVal :=
  .jobj [("posts", .jarr []),
         ("error", .jstr "无法解析 AI 响应"),
         ("raw_response", .jstr rawText)]

/-- Python len() succeeds exactly on sized values (list, str, dict); on
anything else it raises TypeError. -/
def pySized : JVal → Bool
  | .jarr _ => true
  | .jstr _ => true
  | .jobj _ => true
  | _ => false

/-- ImageAnalyzer.analyze_image from the point where the transport envelope
has been received: extract the model text (falling back to json.dumps of the
entire envelope when the extraction produced a falsy value), strip fences,
parse.  `dumps`/`loads` are the json library collaborators.  A non-string
response_text makes .strip() raise AttributeError (none).  After a
successful parse the code logs len(parsed_result.get("posts", [])): a
non-dict parse result raises AttributeError and an unsized posts value
raises TypeError, both re-raised by the except-Exception arm (none). -/
def analyze_image (env : JVal) (dumps : JVal → String)
    (loads : String → Option JVal) : Option JVal := do
  let raw ← extractRaw env
  let raw := if pyTruthy raw then raw else JVal.jstr (dumps env)
  match raw with
  | .jstr s =>
    let stripped := stripFences (pyStrip s)
    match loads (pyStrip stripped) with
    | some v =>
      match v with
      | .jobj fs =>
        if pySized (getFieldD fs "posts" (.jarr [])) then some v else none
      | _ => none
    | none => some (imageParseFailResult stripped)
  | _ => none

/-- The caller-side reading of an extraction result in routes.py:
extraction_result.get("posts", []). -/
def postsOf (r : JVal) : JVal :=
  match r with
  | .jobj fs => getFieldD fs "posts" (.jarr [])
  | _ => .jnull

/-- The fixed fallback of ReportGenerator.generate_insights: one generic
insight, one generic recommendation, one generic one-line summary. -/
def fallbackInsights : JVal :=
  .jobj [("insights", .jarr [.jstr "数据分析完成，请查看详细报告"]),
         ("recommendations", .jarr [.jstr "建议持续监测舆情变化"]),
         ("summary", .jstr "舆情分析已完成，共识别相关帖子若干条。")]

/-- schema/response.py RiskAlert. -/
structure RiskAlert where
  level : String
  description : String
  related_posts : List String
deriving DecidableEq

/-- ReportGenerator.generate_insights.  The prompt construction is pure
string formatting over the arguments and cannot fail; the upstream call is
abstracted as `transport`.  Every failure -- transport error or json.loads
failure -- is caught by the `except Exception` arm, which returns the fixed
fallback; the function never raises. -/
def generate_insights (posts : List PostInfo) (dist : SentimentDistribution)
    (keywords : List KeywordInfo) (alerts : List RiskAlert)
    (transport : Except String String) (loads : String → Option JVal) : JVal :=
  match transport with
  | .error _ => fallbackInsights
  | .ok text =>
    match cleanAndParse loads text with
    | some v => v
    | none => fallbackInsights

/-- Python dict item assignment d[k] = v: update an existing binding in
place, or append a new one. -/
def setField (fs : List (String × JVal)) (k : String) (v : JVal) :
    List (String × JVal) :=
  if (getField fs k).isSome then
    fs.map (fun p => if p.1 = k then (k, v) else p)
  else
    fs ++ [(k, v)]

/-- routes.py lines 112-114: attach post_title and screenshot_index to each
comment of a detail-view screenshot.  Comments must be dicts (item
assignment on anything else raises). -/
def tagComments (pt : JVal) (idx : ℕ) : List JVal → Option (List JVal)
  | [] => some []
  | c :: rest => do
    let cfs ← asObj c
    let rest2 ← tagComments pt idx rest
    some (.jobj (setField (setField cfs "post_title" pt)
                  "screenshot_index" (.jnum (idx + 1))) :: rest2)

/-- routes.py lines 97-108: the legacy-format post dict built from a
detail-view post_content. -/
def buildPostData (pc : List (String × JVal)) (idx : ℕ)
    (hasComments : Bool) : JVal :=
  .jobj [("title", getFieldD pc "title" (.jstr "")),
         ("content", getFieldD pc "content" (.jstr "")),
         ("author", getFieldD pc "author" (.jstr "")),
         ("publish_time", (getField pc "publish_time").getD .jnull),
         ("likes", (getField pc "likes").getD .jnull),
         ("collects", (getField pc "collects").getD .jnull),
         ("comments_count", (getField pc "comments_count").getD .jnull),
         ("tags", getFieldD pc "tags" (.jarr [])),
         ("screenshot_index", .jnum (idx + 1)),
         ("has_comments", .jbool hasComments)]

/-- routes.py feed-view / legacy loop: set screenshot_index on each post
dict. -/
def tagIndex (idx : ℕ) : List JVal → Option (List JVal)
  | [] => some []
  | p :: rest => do
    let fs ← asObj p
    let rest2 ← tagIndex idx rest
    some (.jobj (setField fs "screenshot_index" (.jnum (idx + 1))) :: rest2)

/-- routes.py lines 86-136: processing of one extraction result, yielding
the posts and comments it contributes.  The iterated collections must be
lists of dicts; other shapes raise (none). -/
def processExtraction (idx : ℕ) (extraction : JVal) :
    Option (List JVal × List JVal) := do
  let fs ← asObj extraction
  match getFieldD fs "screenshot_type" (.jstr "unknown") with
  | .jstr "detail_view" =>
    let pc := (getField fs "post_content").getD .jnull
    let commentsRaw := getFieldD fs "comments" (.jarr [])
    if pyTruthy pc then do
      let pcf ← asObj pc
      let comments ← (match commentsRaw with | .jarr cs => some cs | _ => none)
      let post_data := buildPostData pcf idx (comments.length > 0)
      let tagged ← tagComments (getFieldD pcf "title" (.jstr "")) idx comments
      some ([post_data], tagged)
    else
      some ([], [])
  | .jstr "feed_view" =>
    let postsRaw := getFieldD fs "posts" (.jarr [])
    match postsRaw with
    | .jarr ps => do
      let tagged ← tagIndex idx ps
      some (tagged, [])
    | _ => none
  | _ =>
    let postsRaw := getFieldD fs "posts" (.jarr [])
    if pyTruthy postsRaw then
      match postsRaw with
      | .jarr ps => do
        let tagged ← tagIndex idx ps
        some (tagged, [])
      | _ => none
    else
      some ([], [])

/-- The sequential accumulation loop of routes.py over the per-image
extraction results (enumerate starts at idx = 0). -/
def accumulate (idx : ℕ) : List JVal → Option (List JVal × List JVal)
  | [] => some ([], [])
  | e :: rest => do
    let pc ← processExtraction idx e
    let rest2 ← accumulate (idx + 1) rest
    some (pc.1 ++ rest2.1, pc.2 ++ rest2.2)

/-- schema/response.py AnalyzeResponse (the report payload abstracted as a
JSON value). -/
structure AnalyzeResponse where
  success : Bool
  message : String
  data : Option JVal

/-- routes.py analyze_screenshot from the point where all images have been
transcribed: accumulate posts and comments, short-circuit with a success
response and null data when no posts were found, otherwise run the rest of
the pipeline (sentiment analysis, merge, report generation), abstracted as
`rest`.  The Bool records whether the rest of the pipeline -- beginning with
the Sentiment Client call -- was invoked. -/
def analyze_screenshot (extractions : List JVal)
    (rest : List JVal → List JVal → Option AnalyzeResponse) :
    Option (AnalyzeResponse × Bool) := do
  let acc ← accumulate 0 extractions
  if acc.1.isEmpty then
    some (⟨true, "未能从截图中识别到小红书帖子内容", none⟩, false)
  else do
    let r ← rest acc.1 acc.2
    some (r, true)

/-- The dict built by buildGo looks keys up as: last matching record in the
processed list, else the initial map. -/
theorem buildGo_eq : ∀ (ana : List JVal) (m mf : JKey → Option JVal),
    buildGo m ana = some mf →
    ∀ k, mf k = match lastMatching ana k with
      | some q => some q
      | none => m k := by
  intro ana
  induction ana with
  | nil =>
    intro m mf h k
    simp only [buildGo, Option.some_inj] at h
    subst h
    simp [lastMatching]
  | cons p rest ih =>
    intro m mf h k
    simp only [buildGo] at h
    cases hk : keyOfRecord p with
    | none => rw [hk] at h; exact absurd h (by simp)
    | some k0 =>
      rw [hk] at h
      rw [ih _ _ h k]
      simp only [lastMatching, hk]
      cases hrest : lastMatching rest k with
      | some q => simp
      | none =>
        simp only
        by_cases hkk : k = k0
        · subst hkk
          simp
        · rw [if_neg hkk, if_neg (fun hq => hkk (Option.some_inj.mp hq).symm)]

/-- analysis_map realizes exactly the last-write-wins lookup of the spec. -/
theorem analysisMap_eq_lastMatching (ana : List JVal) (m : JKey → Option JVal)
    (h : buildAnalysisMap ana = some m) : ∀ k, m k = lastMatching ana k := by
  intro k
  rw [buildGo_eq ana _ m h k]
  cases lastMatching ana k <;> simp

/-- The merge loop produces one output per input. -/
theorem mergeAll_length (lookup : JKey → Option JVal) :
    ∀ (l : List JVal) (out : List PostInfo),
    mergeAll lookup l = some out → out.length = l.length := by
  intro l
  induction l with
  | nil =>
    intro out h
    simp only [mergeAll, Option.some_inj] at h
    subst h
    rfl
  | cons o rest ih =>
    intro out h
    simp only [mergeAll] at h
    cases h1 : mergeOne lookup o with
    | none => rw [h1] at h; exact absurd h (by simp)
    | some p =>
      rw [h1] at h
      cases h2 : mergeAll lookup rest with
      | none => rw [h2] at h; exact absurd h (by simp)
      | some ps =>
        rw [h2] at h
        simp only [Option.some_inj] at h
        subst h
        simp [ih ps h2]

/-- The i-th merged post is obtained from the i-th original post. -/
theorem mergeAll_get (lookup : JKey → Option JVal) :
    ∀ (l : List JVal) (out : List PostInfo),
    mergeAll lookup l = some out →
    ∀ i (hi : i < l.length) (ho : i < out.length),
    mergeOne lookup (l.get ⟨i, hi⟩) = some (out.get ⟨i, ho⟩) := by
  intro l
  induction l with
  | nil => intro out h i hi ho; exact absurd hi (by simp)
  | cons o rest ih =>
    intro out h i hi ho
    simp only [mergeAll] at h
    cases h1 : mergeOne lookup o with
    | none => rw [h1] at h; exact absurd h (by simp)
    | some p =>
      rw [h1] at h
      cases h2 : mergeAll lookup rest with
      | none => rw [h2] at h; exact absurd h (by simp)
      | some ps =>
        rw [h2] at h
        simp only [Option.some_inj] at h
        subst h
        cases i with
        | zero => simpa using h1
        | succ j =>
          simp only [List.get_cons_succ]
          exact ih ps h2 j (Nat.lt_of_succ_lt_succ hi) (Nat.lt_of_succ_lt_succ ho)

/-- Decomposition of merge_post_info: equal lengths, and the i-th output is
mergeOne of the i-th input under the last-write-wins lookup. -/
theorem merge_decomp (orig ana : List JVal) (out : List PostInfo)
    (h : merge_post_info orig ana = some out) :
    out.length = orig.length ∧
    ∀ i (hi : i < orig.length) (ho : i < out.length),
      mergeOne (lastMatching ana) (orig.get ⟨i, hi⟩) = some (out.get ⟨i, ho⟩) := by
  unfold merge_post_info at h
  cases hb : buildAnalysisMap ana with
  | none => rw [hb] at h; exact absurd h (by simp)
  | some m =>
    rw [hb] at h
    rw [funext (analysisMap_eq_lastMatching ana m hb)] at h
    exact ⟨mergeAll_length _ _ _ h, fun i hi ho => mergeAll_get _ _ _ h i hi ho⟩

/-- Demo data: two analyzed records sharing the title A (the later one must
win), plus original posts A and B (B unmatched). -/
def demoAna : List JVal :=
  [.jobj [("original_title", .jstr "A"), ("sentiment", .jstr "positive"),
          ("sentiment_score", .jnum 1), ("keywords", .jarr [.jstr "x"])],
   .jobj [("original_title", .jstr "A"), ("sentiment", .jstr "negative"),
          ("sentiment_score", .jnum (-1)), ("keywords", .jarr [.jstr "y"])]]

def demoOrig : List JVal :=
  [.jobj [("title", .jstr "A")], .jobj [("title", .jstr "B")]]

def demoMerged : List PostInfo :=
  [⟨"A", "", "", none, none, .negative, -1, ["y"]⟩,
   ⟨"B", "", "", none, none, .neutral, 0, []⟩]

/-- C1: merge_post_info is order- and length-preserving on its first
argument and deterministic under duplicate titles: whenever it returns a
list, that list has exactly one Post per transcribed post, the i-th output
being obtained from the i-th transcribed post, and the sentiment record
joined to a title is the LAST analyzed record carrying that title
(last-write-wins). -/
theorem merge_order_length_lastwins (orig ana : List JVal)
    (out : List PostInfo) (h : merge_post_info orig ana = some out) :
    out.length = orig.length ∧
    ∀ i (hi : i < orig.length) (ho : i < out.length),
      mergeOne (lastMatching ana) (orig.get ⟨i, hi⟩) = some (out.get ⟨i, ho⟩) :=
  merge_decomp orig ana out h

/-- Witness for C1 at the demo input: the merge succeeds, lengths agree, and
post A is joined to the later of the two records with title A. -/
theorem merge_order_length_lastwins_witness :
    merge_post_info demoOrig demoAna = some demoMerged ∧
    demoMerged.length = demoOrig.length ∧
    mergeOne (lastMatching demoAna) (demoOrig.get ⟨0, by decide⟩) =
      some (demoMerged.get ⟨0, by decide⟩) := by
  have hm : merge_post_info demoOrig demoAna = some demoMerged := by decide
  have h := merge_order_length_lastwins demoOrig demoAna demoMerged hm
  exact ⟨hm, h.1, h.2 0 (by decide) (by decide)⟩

/-- Inversion of mergeOne: a successful merge step determines every
sentiment-side field of the produced Post from the looked-up analysis
record, and its score is validated to lie in [-1, 1]. -/
theorem mergeOne_inv (lookup : JKey → Option JVal) (o : JVal) (p : PostInfo)
    (h : mergeOne lookup o = some p) :
    ∃ fields tkey afields,
      asObj o = some fields ∧
      toKey (getFieldD fields "title" (.jstr "")) = some tkey ∧
      asObj ((lookup tkey).getD (.jobj [])) = some afields ∧
      p.sentiment = parseSentiment (getFieldD afields "sentiment" (.jstr "neutral")) ∧
      asScore (pyOr (getFieldD afields "sentiment_score" (.jnum 0)) (.jnum 0)) =
        some p.sentiment_score ∧
      asStrList (pyOr (getFieldD afields "keywords" .jnull) (.jarr [])) =
        some p.keywords ∧
      asStr (pyOr (getFieldD fields "title" (.jstr "")) (.jstr "")) = some p.title ∧
      -1 ≤ p.sentiment_score ∧ p.sentiment_score ≤ 1 := by
  simp only [mergeOne, Option.bind_eq_bind, Option.bind_eq_some] at h
  obtain ⟨fields, hf, h⟩ := h
  obtain ⟨tkey, htk, h⟩ := h
  obtain ⟨afields, haf, h⟩ := h
  obtain ⟨score, hsc, h⟩ := h
  obtain ⟨titleStr, hts, h⟩ := h
  obtain ⟨contentStr, hcs, h⟩ := h
  obtain ⟨authorStr, has2, h⟩ := h
  obtain ⟨likes, hlk, h⟩ := h
  obtain ⟨comments, hcm, h⟩ := h
  obtain ⟨keywords, hkw, h⟩ := h
  unfold mkPostInfo at h
  split at h
  · rename_i hcond
    injection h with h
    subst h
    exact ⟨fields, tkey, afields, hf, htk, haf, rfl, hsc, hkw, hts,
      hcond.1, hcond.2⟩
  · exact absurd h (by simp)

/-- C2: a transcribed post whose title matches no analyzed record is merged
with the synthesized neutral record (sentiment neutral, score 0, no
keywords), and a matched record whose sentiment_score is missing or null
collapses to score 0 -- so every merged Post carries a numeric score. -/
theorem merge_defaults (orig ana : List JVal) (out : List PostInfo)
    (h : merge_post_info orig ana = some out)
    (i : ℕ) (hi : i < orig.length) (ho : i < out.length)
    (fields : List (String × JVal)) (hfields : orig.get ⟨i, hi⟩ = .jobj fields)
    (k : JKey) (hk : toKey (getFieldD fields "title" (.jstr "")) = some k) :
    (lastMatching ana k = none →
      (out.get ⟨i, ho⟩).sentiment = .neutral ∧
      (out.get ⟨i, ho⟩).sentiment_score = 0 ∧
      (out.get ⟨i, ho⟩).keywords = []) ∧
    (∀ rfs, lastMatching ana k = some (.jobj rfs) →
      (getField rfs "sentiment_score" = none ∨
        getField rfs "sentiment_score" = some .jnull) →
      (out.get ⟨i, ho⟩).sentiment_score = 0) := by
  have hm := (merge_decomp orig ana out h).2 i hi ho
  rw [hfields] at hm
  obtain ⟨fields2, tkey, afields, hf, htk, haf, hsent, hsc, hkw, -, -, -⟩ :=
    mergeOne_inv _ _ _ hm
  simp only [asObj, Option.some_inj] at hf
  subst hf
  rw [hk] at htk
  injection htk with htk
  subst htk
  constructor
  · intro hlast
    rw [hlast] at haf
    simp only [Option.getD_none, asObj, Option.some_inj] at haf
    subst haf
    simp only [getFieldD, getField, Option.getD_none] at hsent hsc hkw
    refine ⟨by simpa [parseSentiment] using hsent, ?_, ?_⟩
    · have : pyOr (.jnum 0) (.jnum 0) = .jnum 0 := rfl
      rw [this] at hsc
      simp only [asScore, Option.some_inj] at hsc
      exact hsc.symm
    · have : pyOr JVal.jnull (.jarr []) = .jarr [] := rfl
      rw [this] at hkw
      simp only [asStrList, List.mapM_nil, Option.pure_def, Option.some_inj] at hkw
      exact hkw.symm
  · intro rfs hlast hscore
    rw [hlast] at haf
    simp only [Option.getD_some, asObj, Option.some_inj] at haf
    subst haf
    have hval : pyOr (getFieldD rfs "sentiment_score" (.jnum 0)) (.jnum 0) = .jnum 0 := by
      cases hscore with
      | inl hnone => simp only [getFieldD, hnone, Option.getD_none]; rfl
      | inr hnull => simp only [getFieldD, hnull, Option.getD_some]; rfl
    rw [hval] at hsc
    simp only [asScore, Option.some_inj] at hsc
    exact hsc.symm

/-- Demo data for the null-score collapse: record C carries a null
sentiment_score. -/
def demoAnaNull : List JVal :=
  [.jobj [("original_title", .jstr "C"), ("sentiment", .jstr "positive"),
          ("sentiment_score", .jnull)]]

def demoOrigNull : List JVal := [.jobj [("title", .jstr "C")]]

/-- Witness for C2: post B of the demo has no matching record and comes out
neutral with score 0 and no keywords; post C is matched to a record with a
null score and comes out with score 0. -/
theorem merge_defaults_witness :
    merge_post_info demoOrig demoAna = some demoMerged ∧
    ((demoMerged.get ⟨1, by decide⟩).sentiment = .neutral ∧
      (demoMerged.get ⟨1, by decide⟩).sentiment_score = 0 ∧
      (demoMerged.get ⟨1, by decide⟩).keywords = []) ∧
    merge_post_info demoOrigNull demoAnaNull =
      some [⟨"C", "", "", none, none, .positive, 0, []⟩] ∧
    (⟨"C", "", "", none, none, .positive, 0, []⟩ : PostInfo).sentiment_score = 0 := by
  have h1 : merge_post_info demoOrig demoAna = some demoMerged := by decide
  have h2 : merge_post_info demoOrigNull demoAnaNull =
      some [⟨"C", "", "", none, none, .positive, 0, []⟩] := by decide
  refine ⟨h1, ?_, h2, ?_⟩
  · exact (merge_defaults demoOrig demoAna demoMerged h1 1 (by decide) (by decide)
      [("title", .jstr "B")] rfl (.kstr "B") rfl).1 rfl
  · exact (merge_defaults demoOrigNull demoAnaNull _ h2 0 (by decide) (by decide)
      [("title", .jstr "C")] rfl (.kstr "C") rfl).2
      [("original_title", .jstr "C"), ("sentiment", .jstr "positive"),
       ("sentiment_score", .jnull)] rfl (Or.inr rfl)

/-- C5: the pydantic validation gate admits only Posts whose sentiment_score
lies in [-1, 1], and in particular every Post in a successful merge_post_info
result satisfies the bound -- no operation constructs a violating Post. -/
theorem post_score_in_range :
    (∀ t c a lk cm s sc kw p, mkPostInfo t c a lk cm s sc kw = some p →
      -1 ≤ p.sentiment_score ∧ p.sentiment_score ≤ 1) ∧
    (∀ orig ana out, merge_post_info orig ana = some out →
      ∀ p ∈ out, -1 ≤ p.sentiment_score ∧ p.sentiment_score ≤ 1) := by
  constructor
  · intro t c a lk cm s sc kw p h
    unfold mkPostInfo at h
    split at h
    · rename_i hcond
      injection h with h
      subst h
      exact hcond
    · exact absurd h (by simp)
  · intro orig ana out h p hp
    obtain ⟨⟨i, ho⟩, rfl⟩ := List.mem_iff_get.mp hp
    have hlen := (merge_decomp orig ana out h).1
    have hm := (merge_decomp orig ana out h).2 i (hlen ▸ ho) ho
    obtain ⟨-, -, -, -, -, -, -, -, -, -, h1, h2⟩ := mergeOne_inv _ _ _ hm
    exact ⟨h1, h2⟩

/-- Witness for C5: the validation gate and the merge both applied at
concrete inputs. -/
theorem post_score_in_range_witness :
    (mkPostInfo "t" "" "" none none .neutral 0 [] =
      some ⟨"t", "", "", none, none, .neutral, 0, []⟩) ∧
    (-1 ≤ (⟨"t", "", "", none, none, .neutral, 0, []⟩ : PostInfo).sentiment_score ∧
      (⟨"t", "", "", none, none, .neutral, 0, []⟩ : PostInfo).sentiment_score ≤ 1) ∧
    (-1 ≤ (demoMerged.get ⟨0, by decide⟩).sentiment_score ∧
      (demoMerged.get ⟨0, by decide⟩).sentiment_score ≤ 1) := by
  have hmk : mkPostInfo "t" "" "" none none .neutral 0 [] =
      some ⟨"t", "", "", none, none, .neutral, 0, []⟩ := by decide
  have hm : merge_post_info demoOrig demoAna = some demoMerged := by decide
  refine ⟨hmk, post_score_in_range.1 _ _ _ _ _ _ _ _ _ hmk, ?_⟩
  exact post_score_in_range.2 demoOrig demoAna demoMerged hm _
    (List.get_mem demoMerged 0 (by decide))

/-- C10: merge_post_info joins on the raw title value.  A transcribed post
with no title key gets join key "" and so matches analyzed records whose
original_title is absent or ""; a null title gets the null join key and
matches records with a null original_title; the merge step reads the lookup
only at that key; and in all such cases the emitted Post has title "" and
never null. -/
theorem merge_raw_title_join (fields rfs : List (String × JVal)) :
    (getField fields "title" = none →
      toKey (getFieldD fields "title" (.jstr "")) = some (.kstr "")) ∧
    (getField fields "title" = some .jnull →
      toKey (getFieldD fields "title" (.jstr "")) = some .knull) ∧
    ((getField rfs "original_title" = none ∨
        getField rfs "original_title" = some (.jstr "")) →
      keyOfRecord (.jobj rfs) = some (.kstr "")) ∧
    (getField rfs "original_title" = some .jnull →
      keyOfRecord (.jobj rfs) = some .knull) ∧
    (∀ lookup1 lookup2, getField fields "title" = none →
      lookup1 (.kstr "") = lookup2 (.kstr "") →
      mergeOne lookup1 (.jobj fields) = mergeOne lookup2 (.jobj fields)) ∧
    (∀ lookup1 lookup2, getField fields "title" = some .jnull →
      lookup1 .knull = lookup2 .knull →
      mergeOne lookup1 (.jobj fields) = mergeOne lookup2 (.jobj fields)) ∧
    (∀ lookup p,
      (getField fields "title" = none ∨ getField fields "title" = some .jnull) →
      mergeOne lookup (.jobj fields) = some p → p.title = "") := by
  refine ⟨?_, ?_, ?_, ?_, ?_, ?_, ?_⟩
  · intro h
    simp [getFieldD, h, toKey]
  · intro h
    simp [getFieldD, h, toKey]
  · intro h
    cases h with
    | inl h => simp [keyOfRecord, asObj, getFieldD, h, toKey]
    | inr h => simp [keyOfRecord, asObj, getFieldD, h, toKey]
  · intro h
    simp [keyOfRecord, asObj, getFieldD, h, toKey]
  · intro lookup1 lookup2 htitle hagree
    simp only [mergeOne, getFieldD, htitle, Option.getD_none, toKey,
      Option.bind_eq_bind, Option.some_bind, asObj, hagree]
  · intro lookup1 lookup2 htitle hagree
    simp only [mergeOne, getFieldD, htitle, Option.getD_some, toKey,
      Option.bind_eq_bind, Option.some_bind, asObj, hagree]
  · intro lookup p htitle h
    obtain ⟨fields2, -, -, hf, -, -, -, -, -, hts, -, -⟩ := mergeOne_inv _ _ _ h
    simp only [asObj, Option.some_inj] at hf
    subst hf
    cases htitle with
    | inl habs =>
      simp only [getFieldD, habs, Option.getD_none] at hts
      have : pyOr (.jstr "") (.jstr "") = .jstr "" := rfl
      rw [this] at hts
      simp only [asStr, Option.some_inj] at hts
      exact hts.symm
    | inr hnull =>
      simp only [getFieldD, hnull, Option.getD_some] at hts
      have : pyOr JVal.jnull (.jstr "") = .jstr "" := rfl
      rw [this] at hts
      simp only [asStr, Option.some_inj] at hts
      exact hts.symm

/-- Witness for C10: a titleless transcribed post joined against a record
with an empty original_title, and a null-titled post joined against a record
with a null original_title; both merges succeed and emit title "". -/
theorem merge_raw_title_join_witness :
    merge_post_info [.jobj []]
      [.jobj [("sentiment", .jstr "positive"), ("sentiment_score", .jnum 1)]] =
      some [⟨"", "", "", none, none, .positive, 1, []⟩] ∧
    merge_post_info [.jobj [("title", .jnull)]]
      [.jobj [("original_title", .jnull), ("sentiment", .jstr "negative"),
              ("sentiment_score", .jnum (-1))]] =
      some [⟨"", "", "", none, none, .negative, -1, []⟩] ∧
    keyOfRecord (.jobj [("sentiment", .jstr "positive"),
      ("sentiment_score", .jnum 1)]) = some (.kstr "") ∧
    (⟨"", "", "", none, none, .positive, 1, []⟩ : PostInfo).title = "" ∧
    (⟨"", "", "", none, none, .negative, -1, []⟩ : PostInfo).title = "" := by
  have h1 : merge_post_info [.jobj []]
      [.jobj [("sentiment", .jstr "positive"), ("sentiment_score", .jnum 1)]] =
      some [⟨"", "", "", none, none, .positive, 1, []⟩] := by decide
  have h2 : merge_post_info [.jobj [("title", .jnull)]]
      [.jobj [("original_title", .jnull), ("sentiment", .jstr "negative"),
              ("sentiment_score", .jnum (-1))]] =
      some [⟨"", "", "", none, none, .negative, -1, []⟩] := by decide
  have hone1 : mergeOne (fun k => if k = .kstr "" then
      some (.jobj [("sentiment", .jstr "positive"), ("sentiment_score", .jnum 1)])
      else none) (.jobj []) = some ⟨"", "", "", none, none, .positive, 1, []⟩ := by
    decide
  have hone2 : mergeOne (fun k => if k = .knull then
      some (.jobj [("original_title", .jnull), ("sentiment", .jstr "negative"),
        ("sentiment_score", .jnum (-1))]) else none) (.jobj [("title", .jnull)]) =
      some ⟨"", "", "", none, none, .negative, -1, []⟩ := by
    decide
  refine ⟨h1, h2, (merge_raw_title_join [] _).2.2.1 (Or.inl rfl), ?_, ?_⟩
  · exact (merge_raw_title_join [] [("sentiment", .jstr "positive"),
      ("sentiment_score", .jnum 1)]).2.2.2.2.2.2 _ _ (Or.inl rfl) hone1
  · exact (merge_raw_title_join [("title", .jnull)] []).2.2.2.2.2.2 _ _
      (Or.inr rfl) hone2

/-- The three per-sentiment counts of a post list partition its length:
every Post has exactly one of the three sentiment values. -/
theorem countP_sentiment_sum (posts : List PostInfo) :
    posts.countP (fun p => decide (p.sentiment = SentimentType.positive)) +
    posts.countP (fun p => decide (p.sentiment = SentimentType.negative)) +
    posts.countP (fun p => decide (p.sentiment = SentimentType.neutral)) =
    posts.length := by
  induction posts with
  | nil => rfl
  | cons p rest ih =>
    simp only [List.countP_cons, List.length_cons]
    cases hs : p.sentiment <;> simp [hs] <;> omega

/-- C3: calculate_sentiment_distribution returns per-class counts summing to
the list length, each ratio equal to count/total (hence the ratios sum
exactly to 1 on nonempty input), and the all-zero distribution on the empty
list, with no division performed there. -/
theorem distribution_sound (posts : List PostInfo) (d : SentimentDistribution)
    (h : calculate_sentiment_distribution posts = d) :
    d.positive_count + d.negative_count + d.neutral_count = posts.length ∧
    (posts ≠ [] →
      d.ratio_positive = (d.positive_count : ℚ) / posts.length ∧
      d.ratio_negative = (d.negative_count : ℚ) / posts.length ∧
      d.ratio_neutral = (d.neutral_count : ℚ) / posts.length ∧
      d.ratio_positive + d.ratio_negative + d.ratio_neutral = 1) ∧
    (posts = [] → d = emptyDistribution) := by
  by_cases hnil : posts = []
  · subst hnil
    simp only [calculate_sentiment_distribution, List.length_nil, if_pos rfl] at h
    subst h
    exact ⟨rfl, fun hne => absurd rfl hne, fun _ => rfl⟩
  · have hlen : posts.length ≠ 0 := fun h0 => hnil (List.length_eq_zero.mp h0)
    simp only [calculate_sentiment_distribution, if_neg hlen] at h
    subst h
    refine ⟨countP_sentiment_sum posts, fun _ => ⟨rfl, rfl, rfl, ?_⟩, fun he => absurd he hnil⟩
    rw [div_add_div_same, div_add_div_same]
    have hsum : ((posts.countP (fun p => decide (p.sentiment = SentimentType.positive)) : ℚ) +
        (posts.countP (fun p => decide (p.sentiment = SentimentType.negative)) : ℚ) +
        (posts.countP (fun p => decide (p.sentiment = SentimentType.neutral)) : ℚ)) =
        (posts.length : ℚ) := by
      exact_mod_cast countP_sentiment_sum posts
    rw [hsum]
    exact div_self (Nat.cast_ne_zero.mpr hlen)

/-- Witness for C3: the distribution of the demo merged posts (one negative,
one neutral). -/
theorem distribution_sound_witness :
    calculate_sentiment_distribution demoMerged =
      ⟨0, 1, 1, 0 / 2, 1 / 2, 1 / 2⟩ ∧
    (0 + 1 + 1 = demoMerged.length) ∧
    ((0 : ℚ) / 2 + 1 / 2 + 1 / 2 = 1) ∧
    calculate_sentiment_distribution [] = emptyDistribution := by
  have hd : calculate_sentiment_distribution demoMerged =
      ⟨0, 1, 1, 0 / 2, 1 / 2, 1 / 2⟩ := rfl
  have h := distribution_sound demoMerged _ hd
  refine ⟨hd, h.1, ?_, distribution_sound [] _ rfl |>.2.2 rfl ▸ rfl⟩
  have h2 := (h.2.1 (by simp [demoMerged])).2.2.2
  simpa [hd] using h2

/-- C4: parse_keywords returns at most 10 entries, determined by and drawn
in order from the first 10 input entries (its output is a sublist of the
entrywise parse of the input, so no re-sorting happens); within an entry an
unrecognized sentiment string is coerced to neutral and a missing count
defaults to 1. -/
theorem keywords_normalized (kws : List JVal) :
    (parse_keywords kws).length ≤ 10 ∧
    parse_keywords kws = parse_keywords (kws.take 10) ∧
    (parse_keywords kws).Sublist (kws.filterMap parseKeywordEntry) ∧
    (∀ fs s, getField fs "sentiment" = some (.jstr s) →
      s ≠ "positive" → s ≠ "negative" → s ≠ "neutral" →
      ∀ ki, parseKeywordEntry (.jobj fs) = some ki →
        ki.sentiment = .neutral) ∧
    (∀ fs, getField fs "count" = none →
      ∀ ki, parseKeywordEntry (.jobj fs) = some ki → ki.count = 1) := by
  refine ⟨?_, ?_, ?_, ?_, ?_⟩
  · calc (parse_keywords kws).length ≤ (kws.take 10).length :=
          List.length_filterMap_le _ _
      _ ≤ 10 := List.length_take_le 10 kws
  · unfold parse_keywords
    rw [List.take_take]
    norm_num
  · exact List.Sublist.filterMap parseKeywordEntry (List.take_sublist 10 kws)
  · intro fs s hs h1 h2 h3 ki hki
    have hsent : parseSentiment (getFieldD fs "sentiment" (.jstr "neutral")) =
        .neutral := by
      rw [getFieldD, hs]
      simp only [Option.getD_some]
      unfold parseSentiment
      split <;> simp_all
    simp only [parseKeywordEntry, hsent] at hki
    split at hki
    · injection hki with hki
      subst hki
      rfl
    · exact absurd hki (by simp)
  · intro fs hc ki hki
    simp only [parseKeywordEntry, getFieldD, hc, Option.getD_none] at hki
    split at hki
    · rename_i w c heq1 heq2
      injection hki with hki
      subst hki
      simp only [asOptInt] at heq2
      split at heq2
      · injection heq2 with heq2
        injection heq2 with heq2
        subst heq2
        rfl
      · exact absurd heq2 (by simp)
    · exact absurd hki (by simp)

/-- Demo keyword data: 12 entries, one with an unrecognized sentiment, one
with no count field. -/
def demoKws : List JVal :=
  (List.range 12).map fun i =>
    if i = 0 then
      .jobj [("word", .jstr "k0"), ("count", .jnum 3), ("sentiment", .jstr "angry")]
    else if i = 1 then
      .jobj [("word", .jstr "k1"), ("sentiment", .jstr "positive")]
    else
      .jobj [("word", .jstr "k"), ("count", .jnum 1), ("sentiment", .jstr "neutral")]

/-- Witness for C4: evaluation on the 12-entry demo list, plus the coercion
conjuncts applied at concrete entries. -/
theorem keywords_normalized_witness :
    (parse_keywords demoKws).length ≤ 10 ∧
    parse_keywords demoKws = parse_keywords (demoKws.take 10) ∧
    (parse_keywords demoKws).length = 10 ∧
    (⟨"k0", 3, .neutral⟩ : KeywordInfo).sentiment = .neutral ∧
    (⟨"k1", 1, .positive⟩ : KeywordInfo).count = 1 := by
  have h := keywords_normalized demoKws
  refine ⟨h.1, h.2.1, by decide, ?_, ?_⟩
  · exact h.2.2.2.1 [("word", .jstr "k0"), ("count", .jnum 3),
      ("sentiment", .jstr "angry")] "angry" rfl (by decide) (by decide) (by decide)
      ⟨"k0", 3, .neutral⟩ (by decide)
  · exact h.2.2.2.2 [("word", .jstr "k1"), ("sentiment", .jstr "positive")]
      rfl ⟨"k1", 1, .positive⟩ (by decide)

/-- C6 (amended): analyze_sentiment raises only on transport failure or
when the model output parses to a non-object JSON value (the post-parse
logging then raises AttributeError, re-raised by the except-Exception arm).
An empty post list returns the fixed nothing-to-analyze result without
calling upstream; a JSON parse failure of the model text returns the safe
result with empty analyzed_posts, top_keywords and risk_alerts and a
neutral overall sentiment, rather than raising; a transport error
propagates; a parsed object is returned as is. -/
theorem sentiment_call_soft (posts : List JVal)
    (transport : Except String String) (loads : String → Option JVal) :
    (posts = [] →
      analyze_sentiment posts transport loads = ⟨false, .ok emptySentimentResult⟩) ∧
    (∀ e, posts ≠ [] → transport = .error e →
      analyze_sentiment posts transport loads = ⟨true, .error e⟩) ∧
    (∀ text, posts ≠ [] → transport = .ok text →
      cleanAndParse loads text = none →
      analyze_sentiment posts transport loads = ⟨true, .ok parseFailSentimentResult⟩) ∧
    (∀ text fs, posts ≠ [] → transport = .ok text →
      cleanAndParse loads text = some (.jobj fs) →
      analyze_sentiment posts transport loads = ⟨true, .ok (.jobj fs)⟩) ∧
    (∀ text v, posts ≠ [] → transport = .ok text →
      cleanAndParse loads text = some v → asObj v = none →
      analyze_sentiment posts transport loads = ⟨true, .error "AttributeError"⟩) ∧
    (getField [("analyzed_posts", .jarr []), ("top_keywords", .jarr []),
        ("risk_alerts", .jarr []), ("overall_sentiment", .jstr "neutral"),
        ("sentiment_summary", .jstr "分析过程中发生错误"),
        ("error", .jstr "JSONDecodeError")] "analyzed_posts" = some (.jarr []) ∧
      parseFailSentimentResult = .jobj [("analyzed_posts", .jarr []),
        ("top_keywords", .jarr []), ("risk_alerts", .jarr []),
        ("overall_sentiment", .jstr "neutral"),
        ("sentiment_summary", .jstr "分析过程中发生错误"),
        ("error", .jstr "JSONDecodeError")]) := by
  refine ⟨?_, ?_, ?_, ?_, ?_, rfl, rfl⟩
  · intro h
    subst h
    rfl
  · intro e hne htr
    subst htr
    simp [analyze_sentiment, List.isEmpty_iff, hne]
  · intro text hne htr hparse
    subst htr
    simp [analyze_sentiment, List.isEmpty_iff, hne, hparse]
  · intro text fs hne htr hparse
    subst htr
    simp [analyze_sentiment, List.isEmpty_iff, hne, hparse]
  · intro text v hne htr hparse hobj
    subst htr
    cases v <;> simp_all [analyze_sentiment, List.isEmpty_iff, hne, asObj]

/-- Counterexample to C6 as stated: with the transport succeeding and the
model output being the valid JSON text "[]" (parsed to an array, not an
object), analyze_sentiment raises -- the outcome is an error although no
transport-level failure occurred and the parse succeeded. -/
theorem sentiment_call_soft_cex :
    analyze_sentiment [.jobj []] (.ok "[]")
      (fun s => if s = "[]" then some (.jarr []) else none) =
      ⟨true, .error "AttributeError"⟩ ∧
    cleanAndParse (fun s => if s = "[]" then some (.jarr []) else none) "[]" =
      some (.jarr []) := ⟨rfl, rfl⟩

/-- Witness for C6: the five behaviors at concrete inputs (empty input,
transport error, failing parse, object parse, non-object parse). -/
theorem sentiment_call_soft_witness :
    analyze_sentiment [] (.ok "whatever") (fun _ => none) =
      ⟨false, .ok emptySentimentResult⟩ ∧
    analyze_sentiment [.jobj []] (.error "http 500") (fun _ => none) =
      ⟨true, .error "http 500"⟩ ∧
    analyze_sentiment [.jobj []] (.ok "not json") (fun _ => none) =
      ⟨true, .ok parseFailSentimentResult⟩ ∧
    analyze_sentiment [.jobj []] (.ok "ok")
      (fun s => if s = "ok" then some (.jobj [("analyzed_posts", .jarr [])])
        else none) =
      ⟨true, .ok (.jobj [("analyzed_posts", .jarr [])])⟩ ∧
    analyze_sentiment [.jobj []] (.ok "arr")
      (fun s => if s = "arr" then some (.jarr []) else none) =
      ⟨true, .error "AttributeError"⟩ := by
  refine ⟨?_, ?_, ?_, ?_, ?_⟩
  · exact (sentiment_call_soft [] (.ok "whatever") (fun _ => none)).1 rfl
  · exact (sentiment_call_soft [.jobj []] (.error "http 500") (fun _ => none)).2.1
      "http 500" (by simp) rfl
  · exact (sentiment_call_soft [.jobj []] (.ok "not json") (fun _ => none)).2.2.1
      "not json" (by simp) rfl rfl
  · exact (sentiment_call_soft [.jobj []] (.ok "ok")
      (fun s => if s = "ok" then some (.jobj [("analyzed_posts", .jarr [])])
        else none)).2.2.2.1 "ok" [("analyzed_posts", .jarr [])] (by simp) rfl rfl
  · exact (sentiment_call_soft [.jobj []] (.ok "arr")
      (fun s => if s = "arr" then some (.jarr []) else none)).2.2.2.2.1
      "arr" (.jarr []) (by simp) rfl rfl rfl

/-- C9: generate_insights never raises -- it is a total function -- and on
any failure (transport error or parse failure) it returns the fixed
fallback, which carries exactly one generic insight, one generic
recommendation and one generic one-line summary. -/
theorem insights_never_fail (posts : List PostInfo)
    (dist : SentimentDistribution) (keywords : List KeywordInfo)
    (alerts : List RiskAlert) (transport : Except String String)
    (loads : String → Option JVal) :
    (∀ e, transport = .error e →
      generate_insights posts dist keywords alerts transport loads =
        fallbackInsights) ∧
    (∀ text, transport = .ok text → cleanAndParse loads text = none →
      generate_insights posts dist keywords alerts transport loads =
        fallbackInsights) ∧
    (∃ i r s, fallbackInsights = .jobj [("insights", .jarr [.jstr i]),
        ("recommendations", .jarr [.jstr r]), ("summary", .jstr s)]) := by
  refine ⟨?_, ?_, ⟨_, _, _, rfl⟩⟩
  · intro e htr
    subst htr
    rfl
  · intro text htr hparse
    subst htr
    simp only [generate_insights, hparse]

/-- Witness for C9: both failure modes at concrete inputs. -/
theorem insights_never_fail_witness :
    generate_insights [] emptyDistribution [] [] (.error "boom") (fun _ => none) =
      fallbackInsights ∧
    generate_insights [] emptyDistribution [] [] (.ok "not json") (fun _ => none) =
      fallbackInsights := by
  refine ⟨?_, ?_⟩
  · exact (insights_never_fail [] emptyDistribution [] [] (.error "boom")
      (fun _ => none)).1 "boom" rfl
  · exact (insights_never_fail [] emptyDistribution [] [] (.ok "not json")
      (fun _ => none)).2.1 "not json" rfl rfl

/-- C7 (amended): analyze_image never raises on a JSON parse failure of the
model text: it returns the soft-failure dict with an empty post list and
the raw text as diagnostic.  When the envelope matches none of the
recognized shapes (the cascade leaves a falsy response_text) it falls back
to stringifying the entire envelope; when the json round trip restores an
object envelope (its posts field, if present, a sized value), the call
returns it and -- the envelope carrying no posts field -- degrades to a
zero-post result for the caller.  A non-object envelope, however, makes the
post-parse logging raise (see the counterexample). -/
theorem image_parse_soft (env : JVal) (dumps : JVal → String)
    (loads : String → Option JVal) :
    (∀ s, extractRaw env = some (.jstr s) → s.isEmpty = false →
      loads (pyStrip (stripFences (pyStrip s))) = none →
      analyze_image env dumps loads =
        some (imageParseFailResult (stripFences (pyStrip s)))) ∧
    (∀ v fs, extractRaw env = some v → pyTruthy v = false →
      loads (pyStrip (stripFences (pyStrip (dumps env)))) = some env →
      env = .jobj fs → pySized (getFieldD fs "posts" (.jarr [])) = true →
      analyze_image env dumps loads = some env) ∧
    (∀ fs, env = .jobj fs → getField fs "posts" = none →
      postsOf env = .jarr []) ∧
    (∀ rawText, postsOf (imageParseFailResult rawText) = .jarr []) := by
  refine ⟨?_, ?_, ?_, fun rawText => rfl⟩
  · intro s hex hne hparse
    have ht : pyTruthy (.jstr s) = true := by simp [pyTruthy, hne]
    simp only [analyze_image, hex, Option.bind_eq_bind, Option.some_bind, ht,
      eq_self_iff_true, if_true, hparse]
  · intro v fs hex hfalsy hparse henv hsized
    subst henv
    simp only [analyze_image, hex, Option.bind_eq_bind, Option.some_bind,
      hfalsy, Bool.false_eq_true, if_false, hparse, hsized, if_true]
  · intro fs henv hposts
    subst henv
    simp [postsOf, getFieldD, hposts]

/-- Counterexample to C7 as stated: a JSON-array transport envelope matches
none of the recognized shapes, is stringified by the fallback, round-trips
through the json collaborators back to a list, and then the post-parse
logging raises (none = the exception propagates) -- the call crashes
instead of degrading to an empty result. -/
theorem image_parse_soft_cex :
    analyze_image (.jarr []) (fun _ => "[]")
      (fun s => if s = "[]" then some (.jarr []) else none) = none ∧
    extractRaw (.jarr []) = some (.jstr "") := ⟨rfl, rfl⟩

/-- Witness for C7: an envelope whose model text fails to parse yields the
diagnostic empty-post dict, and an object envelope of unrecognized shape is
stringified, round-trips through the json collaborators, and reads as zero
posts. -/
theorem image_parse_soft_witness :
    analyze_image (.jobj [("output", .jstr "oops")]) (fun _ => "DUMP")
      (fun _ => none) = some (imageParseFailResult "oops") ∧
    analyze_image (.jobj [("foo", .jnull)]) (fun _ => "DUMP")
      (fun s => if s = "DUMP" then some (.jobj [("foo", .jnull)]) else none) =
      some (.jobj [("foo", .jnull)]) ∧
    postsOf (.jobj [("foo", .jnull)]) = .jarr [] ∧
    postsOf (imageParseFailResult "oops") = .jarr [] := by
  have h1 := (image_parse_soft (.jobj [("output", .jstr "oops")])
    (fun _ => "DUMP") (fun _ => none)).1 "oops" rfl rfl rfl
  have h2 := (image_parse_soft (.jobj [("foo", .jnull)]) (fun _ => "DUMP")
    (fun s => if s = "DUMP" then some (.jobj [("foo", .jnull)]) else none)).2.1
    (.jstr "") [("foo", .jnull)] rfl rfl rfl rfl rfl
  have h3 := (image_parse_soft (.jobj [("foo", .jnull)]) (fun _ => "DUMP")
    (fun _ => none)).2.2.1 [("foo", .jnull)] rfl rfl
  exact ⟨h1, h2, h3, rfl⟩

/-- C8: when zero posts were accumulated across all images,
analyze_screenshot returns success with null report data, and the rest of
the pipeline (the Sentiment and Insight clients) is not invoked: the flag is
false and the response does not depend on the rest-of-pipeline function at
all. -/
theorem zero_posts_short_circuit (extractions : List JVal) (cs : List JVal)
    (h : accumulate 0 extractions = some ([], cs)) :
    ∀ rest rest2,
      analyze_screenshot extractions rest =
        some (⟨true, "未能从截图中识别到小红书帖子内容", none⟩, false) ∧
      analyze_screenshot extractions rest =
        analyze_screenshot extractions rest2 := by
  intro rest rest2
  constructor
  · simp [analyze_screenshot, h]
  · simp [analyze_screenshot, h]

/-- Witness for C8: a single image whose extraction failed softly (the
diagnostic empty-post dict) accumulates zero posts and short-circuits. -/
theorem zero_posts_short_circuit_witness :
    accumulate 0 [imageParseFailResult "x"] = some ([], []) ∧
    analyze_screenshot [imageParseFailResult "x"]
      (fun ps cs => some ⟨false, "report", some (.jobj [])⟩) =
      some (⟨true, "未能从截图中识别到小红书帖子内容", none⟩, false) := by
  have hacc : accumulate 0 [imageParseFailResult "x"] = some ([], []) := rfl
  exact ⟨hacc, (zero_posts_short_circuit _ _ hacc
    (fun ps cs => some ⟨false, "report", some (.jobj [])⟩) (fun _ _ => none)).1⟩
